import Mathlib

/-!
Shallow embedding of the authentication and profile subsystem of the
Student-Assistant repository (`src/auth/auth_manager.py`, plus the UI-level
validators in `src/auth/app.py` and the profile-form validation in
`src/auth/student_profile.py`).

The SQLite database `edumate_users.db` is modelled as an explicit state value
`DB` holding the three tables (`users`, `student_profiles`, `remember_tokens`)
as lists of rows, threaded through every operation.  `CURRENT_TIMESTAMP` /
`datetime.now()` is modelled as an explicit `now : Nat` argument (seconds).
Python's `sqlite3` connection runs each method inside an implicit transaction
that is rolled back when the connection is closed without `commit`, so a
failing branch returns the state unchanged.
-/

namespace EduMate

/-- Models `AuthManager.hash_password`: `hashlib.sha256(password.encode()).hexdigest()`.
The digest is deterministic; we idealize SHA-256 collision resistance by using an
injective tagging function as the model of the digest. -/
def hash_password (password : String) : String := "sha256$" ++ password

/-- A row of the `users` table (`init_database`): id (AUTOINCREMENT primary key),
unique email, password hash, created_at, nullable last_login, and
is_profile_complete defaulting to FALSE. -/
structure User where
  id : Nat
  email : String
  password_hash : String
  created_at : Nat
  last_login : Option Nat
  is_profile_complete : Bool
deriving DecidableEq

/-- A row of the `student_profiles` table. The SQL CHECK constraint
`year >= 1 AND year <= 4` is enforced at write time in `save_student_profile`. -/
structure ProfileRow where
  user_id : Nat
  name : String
  year : Int
  course : String
  interests : String
  goals : String
  hobbies : String
  learning_style : String
  current_skills : String
  created_at : Nat
  updated_at : Nat
deriving DecidableEq

/-- A row of the `remember_tokens` table: user_id, unique token, expires_at. -/
structure RememberTokenRow where
  user_id : Nat
  token : String
  expires_at : Nat
deriving DecidableEq

/-- The whole SQLite database `edumate_users.db`.  `next_user_id` models the
AUTOINCREMENT counter of the `users` table. -/
structure DB where
  users : List User
  profiles : List ProfileRow
  tokens : List RememberTokenRow
  next_user_id : Nat
deriving DecidableEq

/-- Result dict of `AuthManager.register_user`. -/
structure RegisterResult where
  success : Bool
  user_id : Option Nat
  message : String
deriving DecidableEq

/-- `AuthManager.register_user(email, password)`: INSERT the new user; the UNIQUE
constraint on `email` raises `sqlite3.IntegrityError` when the email already
exists, answered with the dedicated "Email already exists!" message and no
change to the store (the transaction is not committed). -/
def register_user (db : DB) (email password : String) (now : Nat) :
    RegisterResult × DB :=
  if db.users.any (fun u => u.email == email) then
    ({ success := false, user_id := none, message := "Email already exists!" }, db)
  else
    let uid := db.next_user_id
    let u : User :=
      { id := uid, email := email, password_hash := hash_password password,
        created_at := now, last_login := none, is_profile_complete := false }
    ({ success := true, user_id := some uid,
       message := "User registered successfully!" },
     { db with users := db.users ++ [u], next_user_id := uid + 1 })

/-- Result dict of `AuthManager.login_user`. The success dict carries
`user_id`, `email` and `is_profile_complete`; the failure dict carries none. -/
structure LoginResult where
  success : Bool
  user_id : Option Nat
  email : Option String
  is_profile_complete : Option Bool
  message : String
deriving DecidableEq

/-- The failure dict `{"success": False, "message": "Invalid email or password!"}`
returned by `login_user` on any mismatch. -/
def loginFailure : LoginResult :=
  { success := false, user_id := none, email := none,
    is_profile_complete := none, message := "Invalid email or password!" }

/-- `AuthManager.login_user(email, password)`:
`SELECT id, email, is_profile_complete FROM users WHERE email = ? AND
password_hash = ?`; on a hit, `last_login` is refreshed and the success dict
returned, otherwise the single generic failure dict. -/
def login_user (db : DB) (email password : String) (now : Nat) :
    LoginResult × DB :=
  match db.users.find?
      (fun u => u.email == email && u.password_hash == hash_password password) with
  | some u =>
    let users' := db.users.map
      (fun v => if v.id = u.id then { v with last_login := some now } else v)
    ({ success := true, user_id := some u.id, email := some u.email,
       is_profile_complete := some u.is_profile_complete,
       message := "Login successful!" },
     { db with users := users' })
  | none => (loginFailure, db)

/-- 30 days in seconds: `timedelta(days=30)` in `create_remember_token`. -/
def thirty_days : Nat := 30 * 24 * 60 * 60

/-- `AuthManager.create_remember_token(user_id)`: deletes every existing token
row of this user, then inserts a fresh token expiring 30 days from now, and
returns it.  The fresh random string from `secrets.token_urlsafe(32)` is
modelled as the explicit argument `tok` supplied by the environment.  No
existence check against the `users` table is performed (the connection does not
enable SQLite foreign-key enforcement). -/
def create_remember_token (db : DB) (user_id : Nat) (tok : String) (now : Nat) :
    String × DB :=
  (tok,
   { db with tokens :=
       (db.tokens.filter (fun rt => rt.user_id != user_id)) ++
       [{ user_id := user_id, token := tok, expires_at := now + thirty_days }] })

/-- Result dict of `AuthManager.validate_remember_token`. The failure dict is
just `{"success": False}`. -/
structure ValidateResult where
  success : Bool
  user_id : Option Nat
  email : Option String
  is_profile_complete : Option Bool
deriving DecidableEq

/-- The `{"success": False}` dict returned by `validate_remember_token`. -/
def validateFailure : ValidateResult :=
  { success := false, user_id := none, email := none, is_profile_complete := none }

/-- `AuthManager.validate_remember_token(token)`:
`SELECT u.id, u.email, u.is_profile_complete FROM users u JOIN remember_tokens
rt ON u.id = rt.user_id WHERE rt.token = ? AND rt.expires_at > CURRENT_TIMESTAMP`.
The token column is UNIQUE, so at most one token row matches; the join then
requires a users row with the token's user_id.  A pure read: the store is not
modified (expired rows are left in place). -/
def validate_remember_token (db : DB) (tok : String) (now : Nat) : ValidateResult :=
  match db.tokens.find? (fun rt => rt.token == tok && decide (now < rt.expires_at)) with
  | some rt =>
    match db.users.find? (fun u => u.id == rt.user_id) with
    | some u =>
      { success := true, user_id := some u.id, email := some u.email,
        is_profile_complete := some u.is_profile_complete }
    | none => validateFailure
  | none => validateFailure

/-- The `profile_data` dict passed to `save_student_profile`. -/
structure ProfileData where
  name : String
  year : Int
  course : String
  interests : String
  goals : String
  hobbies : String
  learning_style : String
  current_skills : String
deriving DecidableEq

/-- Result dict of `AuthManager.save_student_profile`. -/
structure SaveResult where
  success : Bool
  message : String
deriving DecidableEq

/-- The per-row effect of the profile UPDATE statement: a row WHERE
`user_id = ?` gets all eight data fields overwritten and `updated_at`
refreshed; other rows are untouched. -/
def updated_profile_row (pd : ProfileData) (now : Nat) (user_id : Nat)
    (p : ProfileRow) : ProfileRow :=
  if p.user_id = user_id then
    { p with name := pd.name, year := pd.year, course := pd.course,
             interests := pd.interests, goals := pd.goals,
             hobbies := pd.hobbies, learning_style := pd.learning_style,
             current_skills := pd.current_skills, updated_at := now }
  else p

/-- The per-row effect of `UPDATE users SET is_profile_complete = TRUE WHERE
id = ?`. -/
def mark_profile_complete (user_id : Nat) (u : User) : User :=
  if u.id = user_id then { u with is_profile_complete := true } else u

/-- `AuthManager.save_student_profile(user_id, profile_data)`: checks for an
existing profile row; UPDATEs it in place when present, INSERTs otherwise, then
sets the user's `is_profile_complete` flag to TRUE and commits.  A `year`
outside the SQL CHECK range `1..4` makes the write raise
`sqlite3.IntegrityError`, caught by the generic handler: the connection closes
without commit, rolling back every change (the message text abstracts the
`str(e)` interpolated by the handler).  No validation of the text fields is
performed here. -/
def save_student_profile (db : DB) (user_id : Nat) (pd : ProfileData) (now : Nat) :
    SaveResult × DB :=
  if pd.year < 1 || pd.year > 4 then
    ({ success := false,
       message := "Failed to save profile: CHECK constraint failed: year >= 1 AND year <= 4" },
     db)
  else
    let profiles' :=
      match db.profiles.find? (fun p => p.user_id == user_id) with
      | some _ => db.profiles.map (updated_profile_row pd now user_id)
      | none =>
        db.profiles ++
        [{ user_id := user_id, name := pd.name, year := pd.year,
           course := pd.course, interests := pd.interests, goals := pd.goals,
           hobbies := pd.hobbies, learning_style := pd.learning_style,
           current_skills := pd.current_skills, created_at := now,
           updated_at := now }]
    let users' := db.users.map (mark_profile_complete user_id)
    ({ success := true, message := "Profile saved successfully!" },
     { db with profiles := profiles', users := users' })

/-- Result dict of `AuthManager.get_student_profile`. -/
structure GetProfileResult where
  success : Bool
  profile : Option ProfileData
  message : Option String
deriving DecidableEq

/-- `AuthManager.get_student_profile(user_id)`: pure read of the profile row of
this user, returning its eight data fields, or a "Profile not found" failure. -/
def get_student_profile (db : DB) (user_id : Nat) : GetProfileResult :=
  match db.profiles.find? (fun p => p.user_id == user_id) with
  | some p =>
    { success := true,
      profile := some { name := p.name, year := p.year, course := p.course,
                        interests := p.interests, goals := p.goals,
                        hobbies := p.hobbies, learning_style := p.learning_style,
                        current_skills := p.current_skills },
      message := none }
  | none => { success := false, profile := none, message := some "Profile not found" }

/-- `AuthManager.logout_user(user_id)` (store part): deletes every remember
token of the user.  The Streamlit session-state clearing is UI state, outside
the store. -/
def logout_user (db : DB) (user_id : Nat) : DB :=
  { db with tokens := db.tokens.filter (fun rt => rt.user_id != user_id) }

/-! UI-level validators from `src/auth/app.py`. -/

/-- `validate_password` from `app.py`: rejects passwords shorter than 6
characters; the store-level `register_user` never calls it. -/
def validate_password (password : String) : Bool × String :=
  if password.length < 6 then
    (false, "Password must be at least 6 characters long")
  else (true, "Password is valid")

/-- Character class `[a-zA-Z0-9._%+-]` of the local part of the email regex. -/
def isEmailLocalChar (c : Char) : Bool :=
  c.isAlpha || c.isDigit || c = '.' || c = '_' || c = '%' || c = '+' || c = '-'

/-- Character class `[a-zA-Z0-9.-]` of the domain part of the email regex. -/
def isEmailDomainChar (c : Char) : Bool :=
  c.isAlpha || c.isDigit || c = '.' || c = '-'

/-- Splits a character list at each occurrence of `sep` (like `str.split`). -/
def splitOnChar (sep : Char) : List Char → List (List Char)
  | [] => [[]]
  | c :: cs =>
    if c = sep then [] :: splitOnChar sep cs
    else
      match splitOnChar sep cs with
      | [] => [[c]]
      | g :: gs => (c :: g) :: gs

/-- Splits a character list around its LAST `'.'`: returns the part before and
the part after, or `none` when there is no dot. -/
def breakAtLastDot : List Char → Option (List Char × List Char)
  | [] => none
  | c :: cs =>
    match breakAtLastDot cs with
    | some (b, t) => some (c :: b, t)
    | none => if c = '.' then some ([], cs) else none

/-- `validate_email` from `app.py`: full match of the regex
`[a-zA-Z0-9._%+-]+@[a-zA-Z0-9.-]+\.[a-zA-Z]` with a final run of at least two
letters.  Since `'@'` belongs to no class the string must contain exactly one
`'@'`, and since the trailing letter run contains no dot the mandatory literal
dot is the last dot of the domain; the matcher decides exactly that language.
The store-level `register_user` never calls it. -/
def validate_email (email : String) : Bool :=
  match splitOnChar '@' email.data with
  | [lp, dom] =>
    !lp.isEmpty && lp.all isEmailLocalChar &&
    (match breakAtLastDot dom with
     | some (b, t) =>
       !b.isEmpty && b.all isEmailDomainChar &&
       decide (2 ≤ t.length) && t.all Char.isAlpha
     | none => false)
  | _ => false

/-! Profile-form validation from `src/auth/student_profile.py` (`main`). -/

/-- Whitespace test matching Python's `str.strip()` of the common ASCII
whitespace characters. -/
def is_space_char (c : Char) : Bool :=
  c = ' ' || c = '\t' || c = '\n' || c = '\x0d' || c = '\x0b' || c = '\x0c'

/-- `not value.strip()`: the string is empty after trimming, i.e. every
character is whitespace. -/
def stripped_empty (s : String) : Bool := s.data.all is_space_char

/-- The `required_fields` dict built in `student_profile.main` before saving:
field name paired with the submitted value (academic year is a selectbox and is
not among them). -/
def required_field_entries (pd : ProfileData) : List (String × String) :=
  [("name", pd.name), ("course", pd.course), ("interests", pd.interests),
   ("goals", pd.goals), ("hobbies", pd.hobbies),
   ("learning_style", pd.learning_style), ("current_skills", pd.current_skills)]

/-- `missing_fields = [field for field, value in required_fields.items() if not
value.strip()]`. -/
def missing_fields (pd : ProfileData) : List String :=
  ((required_field_entries pd).filter (fun fv => stripped_empty fv.2)).map Prod.fst

/-- The submit handler of the profile form in `student_profile.main`: when any
required field is blank it shows the error listing the missing field names and
does NOT call `save_student_profile`; otherwise it saves. -/
def submit_profile_form (db : DB) (user_id : Nat) (pd : ProfileData) (now : Nat) :
    Except String (SaveResult × DB) :=
  if missing_fields pd ≠ [] then
    Except.error ("❌ Please fill in all required fields: " ++
      String.intercalate ", " (missing_fields pd))
  else
    Except.ok (save_student_profile db user_id pd now)

/-! Helper lemmas. -/

/-- A login probe with email `e` finds no user when every stored user either has
a different email or a different password hash. -/
theorem login_find?_none (db : DB) (e p : String)
    (h : ∀ u ∈ db.users, u.email = e → u.password_hash ≠ hash_password p) :
    db.users.find?
      (fun u => u.email == e && u.password_hash == hash_password p) = none := by
  rw [List.find?_eq_none]
  intro u hu
  by_cases he : u.email = e
  · simp [he, h u hu he]
  · simp [he]

/-! Claim theorems. -/

/-- C1: for every store in which no account has email `e`, `register_user e p`
succeeds returning the fresh account id, and an immediately following
`login_user e p` succeeds and returns the same id with `is_profile_complete`
false. -/
theorem register_then_login (db : DB) (e p : String) (now now' : Nat)
    (hfresh : ∀ u ∈ db.users, u.email ≠ e) :
    (register_user db e p now).1.success = true ∧
    (register_user db e p now).1.user_id = some db.next_user_id ∧
    (login_user (register_user db e p now).2 e p now').1 =
      { success := true, user_id := some db.next_user_id, email := some e,
        is_profile_complete := some false, message := "Login successful!" } := by
  have hany : db.users.any (fun u => u.email == e) = false := by
    simp only [List.any_eq_false, beq_iff_eq]
    exact fun u hu => hfresh u hu
  have hnone : db.users.find?
      (fun u => u.email == e && u.password_hash == hash_password p) = none :=
    login_find?_none db e p (fun u hu he => absurd he (hfresh u hu))
  unfold register_user login_user
  simp [hany, hnone, List.find?_append]

/-- C1 witness at a concrete store. -/
theorem register_then_login_witness :
    let db : DB := { users := [], profiles := [], tokens := [], next_user_id := 1 }
    (register_user db "a@b.cc" "secret1" 5).1.success = true ∧
    (register_user db "a@b.cc" "secret1" 5).1.user_id = some 1 ∧
    (login_user (register_user db "a@b.cc" "secret1" 5).2 "a@b.cc" "secret1" 6).1 =
      { success := true, user_id := some 1, email := some "a@b.cc",
        is_profile_complete := some false, message := "Login successful!" } :=
  register_then_login
    { users := [], profiles := [], tokens := [], next_user_id := 1 }
    "a@b.cc" "secret1" 5 6 (by decide)

/-- C2: a login with an existing email but wrong password and a login with an
unknown email return the identical failure dict (success false, message
"Invalid email or password!"), and neither changes the store: the caller cannot
distinguish the two cases. -/
theorem login_no_enumeration (db : DB) (e₁ p₁ e₂ p₂ : String) (now now' : Nat)
    (_hexists : ∃ u ∈ db.users, u.email = e₁)
    (hwrong : ∀ u ∈ db.users, u.email = e₁ → u.password_hash ≠ hash_password p₁)
    (hnone : ∀ u ∈ db.users, u.email ≠ e₂) :
    login_user db e₁ p₁ now = (loginFailure, db) ∧
    login_user db e₂ p₂ now' = (loginFailure, db) := by
  have h₁ := login_find?_none db e₁ p₁ hwrong
  have h₂ := login_find?_none db e₂ p₂ (fun u hu he => absurd he (hnone u hu))
  constructor
  · unfold login_user
    rw [h₁]
  · unfold login_user
    rw [h₂]

/-- C2 witness at a concrete store holding one account. -/
theorem login_no_enumeration_witness :
    let db : DB :=
      { users := [{ id := 1, email := "a@b.cc", password_hash := hash_password "secret1",
                    created_at := 0, last_login := none, is_profile_complete := false }],
        profiles := [], tokens := [], next_user_id := 2 }
    login_user db "a@b.cc" "wrong" 9 = (loginFailure, db) ∧
    login_user db "no@no.cc" "anything" 9 = (loginFailure, db) :=
  login_no_enumeration _ "a@b.cc" "wrong" "no@no.cc" "anything" 9 9
    (by decide) (by decide) (by decide)

/-- C3: issuing a remember token twice for the same account leaves exactly one
live token: the first token no longer validates, the second validates to the
account's id, email and completion flag, and the store holds exactly one token
row for the account.  The hypotheses say the account is stored and the two
generated tokens are fresh and distinct, as `secrets.token_urlsafe` guarantees. -/
theorem remember_token_single_live (db : DB) (uid : Nat) (u : User)
    (t₁ t₂ : String) (n₁ n₂ now : Nat)
    (hu : db.users.find? (fun v => v.id == uid) = some u)
    (ht₁ : ∀ rt ∈ db.tokens, rt.token ≠ t₁)
    (ht₂ : ∀ rt ∈ db.tokens, rt.token ≠ t₂)
    (hne : t₁ ≠ t₂)
    (hnow : now < n₂ + thirty_days) :
    validate_remember_token
      (create_remember_token (create_remember_token db uid t₁ n₁).2 uid t₂ n₂).2
      t₁ now = validateFailure ∧
    validate_remember_token
      (create_remember_token (create_remember_token db uid t₁ n₁).2 uid t₂ n₂).2
      t₂ now =
      { success := true, user_id := some u.id, email := some u.email,
        is_profile_complete := some u.is_profile_complete } ∧
    ((create_remember_token (create_remember_token db uid t₁ n₁).2 uid t₂ n₂).2.tokens.filter
        (fun rt => rt.user_id == uid)) =
      [{ user_id := uid, token := t₂, expires_at := n₂ + thirty_days }] := by
  have hdb₂ :
      (create_remember_token (create_remember_token db uid t₁ n₁).2 uid t₂ n₂).2.tokens =
      db.tokens.filter (fun rt => rt.user_id != uid) ++
        [{ user_id := uid, token := t₂, expires_at := n₂ + thirty_days }] := by
    simp [create_remember_token, List.filter_append, List.filter_filter]
  refine ⟨?_, ?_, ?_⟩
  · have hfind :
        ((create_remember_token (create_remember_token db uid t₁ n₁).2 uid t₂ n₂).2.tokens.find?
          (fun rt => rt.token == t₁ && decide (now < rt.expires_at))) = none := by
      rw [hdb₂, List.find?_eq_none]
      intro rt hrt
      rcases List.mem_append.1 hrt with hmem | hmem
      · simp [ht₁ rt (List.mem_of_mem_filter hmem)]
      · simp only [List.mem_singleton] at hmem
        subst hmem
        simp [Ne.symm hne]
    unfold validate_remember_token
    rw [hfind]
  · have hleft :
        ((db.tokens.filter (fun rt => rt.user_id != uid)).find?
          (fun rt => rt.token == t₂ && decide (now < rt.expires_at))) = none := by
      rw [List.find?_eq_none]
      intro rt hrt
      simp [ht₂ rt (List.mem_of_mem_filter hrt)]
    have hfind :
        ((create_remember_token (create_remember_token db uid t₁ n₁).2 uid t₂ n₂).2.tokens.find?
          (fun rt => rt.token == t₂ && decide (now < rt.expires_at))) =
        some { user_id := uid, token := t₂, expires_at := n₂ + thirty_days } := by
      rw [hdb₂, List.find?_append, hleft]
      simp [hnow]
    unfold validate_remember_token
    rw [hfind]
    dsimp only
    have husers :
        (create_remember_token (create_remember_token db uid t₁ n₁).2 uid t₂ n₂).2.users
          = db.users := rfl
    rw [husers, hu]
  · rw [hdb₂]
    simp [List.filter_append, List.filter_filter, bne]

/-- C3 witness at a concrete store. -/
theorem remember_token_single_live_witness :
    let db : DB :=
      { users := [{ id := 1, email := "a@b.cc", password_hash := hash_password "secret1",
                    created_at := 0, last_login := none, is_profile_complete := false }],
        profiles := [], tokens := [], next_user_id := 2 }
    validate_remember_token
      (create_remember_token (create_remember_token db 1 "tokA" 100).2 1 "tokB" 200).2
      "tokA" 300 = validateFailure ∧
    validate_remember_token
      (create_remember_token (create_remember_token db 1 "tokA" 100).2 1 "tokB" 200).2
      "tokB" 300 =
      { success := true, user_id := some 1, email := some "a@b.cc",
        is_profile_complete := some false } ∧
    ((create_remember_token (create_remember_token db 1 "tokA" 100).2 1 "tokB" 200).2.tokens.filter
        (fun rt => rt.user_id == 1)) =
      [{ user_id := 1, token := "tokB", expires_at := 200 + thirty_days }] :=
  remember_token_single_live
    { users := [{ id := 1, email := "a@b.cc", password_hash := hash_password "secret1",
                  created_at := 0, last_login := none, is_profile_complete := false }],
      profiles := [], tokens := [], next_user_id := 2 }
    1
    { id := 1, email := "a@b.cc", password_hash := hash_password "secret1",
      created_at := 0, last_login := none, is_profile_complete := false }
    "tokA" "tokB" 100 200 300
    (by decide) (by decide) (by decide) (by decide) (by decide)

/-- C4: a stored token whose `expires_at` has passed never validates: the
lookup filters on `expires_at > CURRENT_TIMESTAMP`, so the row, though present
and well-formed, yields the failure dict; validation is a pure read and the
row stays in storage. -/
theorem expired_token_invalid (db : DB) (tok : String) (now : Nat)
    (rt : RememberTokenRow) (hmem : rt ∈ db.tokens) (_htok : rt.token = tok)
    (hexp : ∀ s ∈ db.tokens, s.token = tok → s.expires_at ≤ now) :
    validate_remember_token db tok now = validateFailure ∧ rt ∈ db.tokens := by
  refine ⟨?_, hmem⟩
  have hfind : (db.tokens.find?
      (fun s => s.token == tok && decide (now < s.expires_at))) = none := by
    rw [List.find?_eq_none]
    intro s hs
    by_cases hst : s.token = tok
    · simp [hst, Nat.not_lt.2 (hexp s hs hst)]
    · simp [hst]
  unfold validate_remember_token
  rw [hfind]

/-- C4 witness at a concrete store holding one expired token. -/
theorem expired_token_invalid_witness :
    let db : DB :=
      { users := [{ id := 1, email := "a@b.cc", password_hash := hash_password "secret1",
                    created_at := 0, last_login := none, is_profile_complete := false }],
        profiles := [],
        tokens := [{ user_id := 1, token := "tokA", expires_at := 50 }],
        next_user_id := 2 }
    validate_remember_token db "tokA" 50 = validateFailure ∧
    ({ user_id := 1, token := "tokA", expires_at := 50 } : RememberTokenRow) ∈ db.tokens :=
  expired_token_invalid
    { users := [{ id := 1, email := "a@b.cc", password_hash := hash_password "secret1",
                  created_at := 0, last_login := none, is_profile_complete := false }],
      profiles := [],
      tokens := [{ user_id := 1, token := "tokA", expires_at := 50 }],
      next_user_id := 2 }
    "tokA" 50 { user_id := 1, token := "tokA", expires_at := 50 }
    (by decide) (by decide) (by decide)

/-- C5: saving a profile whose year lies outside 1..4 fails (the SQL CHECK
constraint aborts the write) and leaves the whole store unchanged: any prior
profile row and the account's completion flag are untouched. -/
theorem save_profile_invalid_year (db : DB) (uid : Nat) (pd : ProfileData)
    (now : Nat) (hy : pd.year < 1 ∨ 4 < pd.year) :
    (save_student_profile db uid pd now).1.success = false ∧
    (save_student_profile db uid pd now).2 = db := by
  rcases hy with h | h <;> exact ⟨by simp [save_student_profile, h],
    by simp [save_student_profile, h]⟩

/-- C5 witness: year 5 is rejected and the store (with its prior profile row
and completion flag) is returned unchanged. -/
theorem save_profile_invalid_year_witness :
    let db : DB :=
      { users := [{ id := 1, email := "a@b.cc", password_hash := hash_password "secret1",
                    created_at := 0, last_login := none, is_profile_complete := true }],
        profiles := [{ user_id := 1, name := "Al", year := 2, course := "CS",
                       interests := "x", goals := "y", hobbies := "z",
                       learning_style := "V", current_skills := "w",
                       created_at := 3, updated_at := 3 }],
        tokens := [], next_user_id := 2 }
    let pd : ProfileData :=
      { name := "Al", year := 5, course := "CS", interests := "x", goals := "y",
        hobbies := "z", learning_style := "V", current_skills := "w" }
    (save_student_profile db 1 pd 9).1.success = false ∧
    (save_student_profile db 1 pd 9).2 = db :=
  save_profile_invalid_year
    { users := [{ id := 1, email := "a@b.cc", password_hash := hash_password "secret1",
                  created_at := 0, last_login := none, is_profile_complete := true }],
      profiles := [{ user_id := 1, name := "Al", year := 2, course := "CS",
                     interests := "x", goals := "y", hobbies := "z",
                     learning_style := "V", current_skills := "w",
                     created_at := 3, updated_at := 3 }],
      tokens := [], next_user_id := 2 }
    1
    { name := "Al", year := 5, course := "CS", interests := "x", goals := "y",
      hobbies := "z", learning_style := "V", current_skills := "w" }
    9 (Or.inr (by decide))

/-- C6 counterexample: the store-level save does NOT reject a profile whose
required text field is blank — with an empty `name` (blank after trimming) the
save succeeds and writes a profile row, refuting the claim that
`save_student_profile` itself fails with a validation error in this case. -/
theorem save_profile_empty_field_cex :
    stripped_empty
      (ProfileData.mk "" 2 "CS" "x" "y" "z" "V" "w").name = true ∧
    (save_student_profile
      { users := [{ id := 1, email := "a@b.cc", password_hash := hash_password "secret1",
                    created_at := 0, last_login := none, is_profile_complete := false }],
        profiles := [], tokens := [], next_user_id := 2 }
      1 (ProfileData.mk "" 2 "CS" "x" "y" "z" "V" "w") 7).1.success = true ∧
    (save_student_profile
      { users := [{ id := 1, email := "a@b.cc", password_hash := hash_password "secret1",
                    created_at := 0, last_login := none, is_profile_complete := false }],
        profiles := [], tokens := [], next_user_id := 2 }
      1 (ProfileData.mk "" 2 "CS" "x" "y" "z" "V" "w") 7).2.profiles ≠ [] := by
  decide

/-- C6 (amended): the blank-field validation lives in the profile-form submit
handler, not in the store: when a required field is blank after trimming, the
handler reports the error listing the missing field names (the blank field
among them) and never calls `save_student_profile`, so nothing is written. -/
theorem form_rejects_empty_field (db : DB) (uid : Nat) (pd : ProfileData)
    (now : Nat) (f v : String) (hf : (f, v) ∈ required_field_entries pd)
    (hv : stripped_empty v = true) :
    f ∈ missing_fields pd ∧
    submit_profile_form db uid pd now =
      Except.error ("❌ Please fill in all required fields: " ++
        String.intercalate ", " (missing_fields pd)) := by
  have hmem : f ∈ missing_fields pd := by
    unfold missing_fields
    exact List.mem_map.2 ⟨(f, v), List.mem_filter.2 ⟨hf, hv⟩, rfl⟩
  refine ⟨hmem, ?_⟩
  unfold submit_profile_form
  rw [if_pos (List.ne_nil_of_mem hmem)]

/-- C6 witness: a profile with a blank name is rejected by the form. -/
theorem form_rejects_empty_field_witness :
    "name" ∈ missing_fields (ProfileData.mk "" 2 "CS" "x" "y" "z" "V" "w") ∧
    submit_profile_form
      { users := [], profiles := [], tokens := [], next_user_id := 1 }
      1 (ProfileData.mk "" 2 "CS" "x" "y" "z" "V" "w") 7 =
      Except.error ("❌ Please fill in all required fields: " ++
        String.intercalate ", "
          (missing_fields (ProfileData.mk "" 2 "CS" "x" "y" "z" "V" "w"))) :=
  form_rejects_empty_field
    { users := [], profiles := [], tokens := [], next_user_id := 1 }
    1 (ProfileData.mk "" 2 "CS" "x" "y" "z" "V" "w") 7 "name" ""
    (by decide) (by decide)

/-- C7: saving a fully valid profile (year in 1..4, required text fields
non-blank) succeeds, a subsequent `get_student_profile` returns exactly the
saved values, and every stored user with the saved id has its completion flag
set to true. -/
theorem save_profile_roundtrip (db : DB) (uid : Nat) (pd : ProfileData)
    (now : Nat) (hy1 : 1 ≤ pd.year) (hy4 : pd.year ≤ 4)
    (_hfields : ∀ fv ∈ required_field_entries pd, stripped_empty fv.2 = false) :
    (save_student_profile db uid pd now).1.success = true ∧
    get_student_profile (save_student_profile db uid pd now).2 uid =
      { success := true, profile := some pd, message := none } ∧
    ∀ u ∈ (save_student_profile db uid pd now).2.users,
      u.id = uid → u.is_profile_complete = true := by
  have h1 : ¬ (pd.year < 1) := Int.not_lt.mpr hy1
  have h4 : ¬ (pd.year > 4) := Int.not_lt.mpr hy4
  refine ⟨by simp [save_student_profile, h1, h4], ?_, ?_⟩
  · cases hcase : db.profiles.find? (fun p => p.user_id == uid) with
    | none =>
      simp [save_student_profile, h1, h4, hcase, get_student_profile,
        List.find?_append]
    | some prow =>
      have hqcomp :
          ((fun p : ProfileRow => p.user_id == uid) ∘ updated_profile_row pd now uid) =
          (fun p : ProfileRow => p.user_id == uid) := by
        funext p
        by_cases hp : p.user_id = uid <;> simp [updated_profile_row, hp]
      have hprow : prow.user_id = uid := by
        have := List.find?_some hcase
        simpa using this
      have hsave : (save_student_profile db uid pd now).2.profiles =
          db.profiles.map (updated_profile_row pd now uid) := by
        unfold save_student_profile
        rw [if_neg (by simp [h1, h4])]
        dsimp only
        rw [hcase]
      unfold get_student_profile
      rw [hsave, List.find?_map, hqcomp, hcase]
      simp [updated_profile_row, hprow]
  · intro u hu hid
    have hu' : u ∈ db.users.map (mark_profile_complete uid) := by
      simpa [save_student_profile, h1, h4] using hu
    rcases List.mem_map.1 hu' with ⟨v, _hv, rfl⟩
    by_cases hvid : v.id = uid
    · simp [mark_profile_complete, hvid]
    · rw [show mark_profile_complete uid v = v from if_neg hvid] at hid ⊢
      exact absurd hid hvid

/-- C7 witness at a concrete store. -/
theorem save_profile_roundtrip_witness :
    (save_student_profile
      { users := [{ id := 1, email := "a@b.cc", password_hash := hash_password "secret1",
                    created_at := 0, last_login := none, is_profile_complete := false }],
        profiles := [], tokens := [], next_user_id := 2 }
      1 (ProfileData.mk "Al" 2 "CS" "x" "y" "z" "V" "w") 7).1.success = true ∧
    get_student_profile
      (save_student_profile
        { users := [{ id := 1, email := "a@b.cc", password_hash := hash_password "secret1",
                      created_at := 0, last_login := none, is_profile_complete := false }],
          profiles := [], tokens := [], next_user_id := 2 }
        1 (ProfileData.mk "Al" 2 "CS" "x" "y" "z" "V" "w") 7).2 1 =
      { success := true, profile := some (ProfileData.mk "Al" 2 "CS" "x" "y" "z" "V" "w"),
        message := none } ∧
    ∀ u ∈ (save_student_profile
        { users := [{ id := 1, email := "a@b.cc", password_hash := hash_password "secret1",
                      created_at := 0, last_login := none, is_profile_complete := false }],
          profiles := [], tokens := [], next_user_id := 2 }
        1 (ProfileData.mk "Al" 2 "CS" "x" "y" "z" "V" "w") 7).2.users,
      u.id = 1 → u.is_profile_complete = true :=
  save_profile_roundtrip
    { users := [{ id := 1, email := "a@b.cc", password_hash := hash_password "secret1",
                  created_at := 0, last_login := none, is_profile_complete := false }],
      profiles := [], tokens := [], next_user_id := 2 }
    1 (ProfileData.mk "Al" 2 "CS" "x" "y" "z" "V" "w") 7
    (by decide) (by decide) (by decide)

/-- C8: registering an email that already exists fails with the dedicated
"Email already exists!" outcome (distinct from the generic failure shape) and
returns the store unchanged, so the first registered account keeps its record. -/
theorem register_duplicate_email (db : DB) (e p : String) (now : Nat) (u : User)
    (hmem : u ∈ db.users) (he : u.email = e) :
    register_user db e p now =
      ({ success := false, user_id := none, message := "Email already exists!" }, db) ∧
    u ∈ (register_user db e p now).2.users := by
  have hany : db.users.any (fun v => v.email == e) = true :=
    List.any_eq_true.2 ⟨u, hmem, by simp [he]⟩
  have h1 : register_user db e p now =
      ({ success := false, user_id := none, message := "Email already exists!" }, db) := by
    unfold register_user
    simp [hany]
  exact ⟨h1, by rw [h1]; exact hmem⟩

/-- C8 witness: re-registering a stored email is rejected and the store kept. -/
theorem register_duplicate_email_witness :
    register_user
      { users := [{ id := 1, email := "a@b.cc", password_hash := hash_password "secret1",
                    created_at := 0, last_login := none, is_profile_complete := false }],
        profiles := [], tokens := [], next_user_id := 2 }
      "a@b.cc" "other99" 8 =
      ({ success := false, user_id := none, message := "Email already exists!" },
       { users := [{ id := 1, email := "a@b.cc", password_hash := hash_password "secret1",
                     created_at := 0, last_login := none, is_profile_complete := false }],
         profiles := [], tokens := [], next_user_id := 2 }) ∧
    ({ id := 1, email := "a@b.cc", password_hash := hash_password "secret1",
       created_at := 0, last_login := none, is_profile_complete := false } : User) ∈
      (register_user
        { users := [{ id := 1, email := "a@b.cc", password_hash := hash_password "secret1",
                      created_at := 0, last_login := none, is_profile_complete := false }],
          profiles := [], tokens := [], next_user_id := 2 }
        "a@b.cc" "other99" 8).2.users :=
  register_duplicate_email
    { users := [{ id := 1, email := "a@b.cc", password_hash := hash_password "secret1",
                  created_at := 0, last_login := none, is_profile_complete := false }],
      profiles := [], tokens := [], next_user_id := 2 }
    "a@b.cc" "other99" 8
    { id := 1, email := "a@b.cc", password_hash := hash_password "secret1",
      created_at := 0, last_login := none, is_profile_complete := false }
    (by decide) (by decide)

/-- C9: `register_user` itself validates nothing about the format of its
inputs: any not-yet-stored email (even empty) with any password (even empty or
shorter than 6 characters) registers successfully and is persisted, while the
minimum-length password check and the email-syntax regex exist only in the UI
(`validate_password`, `validate_email` in `app.py`), which rejects such inputs. -/
theorem register_no_format_validation (db : DB) (e p : String) (now : Nat)
    (hfresh : ∀ u ∈ db.users, u.email ≠ e) :
    (register_user db e p now).1.success = true ∧
    ({ id := db.next_user_id, email := e, password_hash := hash_password p,
       created_at := now, last_login := none, is_profile_complete := false } : User) ∈
      (register_user db e p now).2.users ∧
    (validate_password "").1 = false ∧
    (validate_password "12345").1 = false ∧
    validate_email "" = false := by
  have hany : db.users.any (fun u => u.email == e) = false := by
    simp only [List.any_eq_false, beq_iff_eq]
    exact fun u hu => hfresh u hu
  refine ⟨by simp [register_user, hany], ?_, by decide, by decide, by decide⟩
  unfold register_user
  simp [hany]

/-- C9 witness: the empty email with the empty password registers. -/
theorem register_no_format_validation_witness :
    (register_user { users := [], profiles := [], tokens := [], next_user_id := 1 }
      "" "" 0).1.success = true ∧
    ({ id := 1, email := "", password_hash := hash_password "",
       created_at := 0, last_login := none, is_profile_complete := false } : User) ∈
      (register_user { users := [], profiles := [], tokens := [], next_user_id := 1 }
        "" "" 0).2.users ∧
    (validate_password "").1 = false ∧
    (validate_password "12345").1 = false ∧
    validate_email "" = false :=
  register_no_format_validation
    { users := [], profiles := [], tokens := [], next_user_id := 1 } "" "" 0
    (by decide)

/-- C10: issuing a remember token for an id matching no stored account does not
fail — the token row is inserted and returned (no foreign-key enforcement) —
yet validating that token always yields the failure dict, because validation
joins the token row against the users table. -/
theorem orphan_token_never_validates (db : DB) (uid : Nat) (tok : String)
    (n now : Nat) (hno : ∀ u ∈ db.users, u.id ≠ uid)
    (hfresh : ∀ rt ∈ db.tokens, rt.token ≠ tok) :
    (create_remember_token db uid tok n).1 = tok ∧
    ({ user_id := uid, token := tok, expires_at := n + thirty_days } :
        RememberTokenRow) ∈ (create_remember_token db uid tok n).2.tokens ∧
    validate_remember_token (create_remember_token db uid tok n).2 tok now =
      validateFailure := by
  refine ⟨rfl, by simp [create_remember_token], ?_⟩
  have hleft : ((db.tokens.filter (fun rt => rt.user_id != uid)).find?
      (fun rt => rt.token == tok && decide (now < rt.expires_at))) = none := by
    rw [List.find?_eq_none]
    intro s hs
    simp [hfresh s (List.mem_of_mem_filter hs)]
  have husers : db.users.find? (fun u => u.id == uid) = none := by
    rw [List.find?_eq_none]
    intro v hv
    simp [hno v hv]
  unfold validate_remember_token create_remember_token
  dsimp only
  rw [List.find?_append, hleft]
  by_cases hlt : now < n + thirty_days
  · simp [hlt, husers]
  · simp [hlt]

/-- C10 witness: a token issued for the unknown id 99 comes back fresh but
never validates. -/
theorem orphan_token_never_validates_witness :
    (create_remember_token
      { users := [{ id := 1, email := "a@b.cc", password_hash := hash_password "secret1",
                    created_at := 0, last_login := none, is_profile_complete := false }],
        profiles := [], tokens := [], next_user_id := 2 }
      99 "tokC" 100).1 = "tokC" ∧
    ({ user_id := 99, token := "tokC", expires_at := 100 + thirty_days } :
        RememberTokenRow) ∈
      (create_remember_token
        { users := [{ id := 1, email := "a@b.cc", password_hash := hash_password "secret1",
                      created_at := 0, last_login := none, is_profile_complete := false }],
          profiles := [], tokens := [], next_user_id := 2 }
        99 "tokC" 100).2.tokens ∧
    validate_remember_token
      (create_remember_token
        { users := [{ id := 1, email := "a@b.cc", password_hash := hash_password "secret1",
                      created_at := 0, last_login := none, is_profile_complete := false }],
          profiles := [], tokens := [], next_user_id := 2 }
        99 "tokC" 100).2 "tokC" 300 = validateFailure :=
  orphan_token_never_validates
    { users := [{ id := 1, email := "a@b.cc", password_hash := hash_password "secret1",
                  created_at := 0, last_login := none, is_profile_complete := false }],
      profiles := [], tokens := [], next_user_id := 2 }
    99 "tokC" 100 300 (by decide) (by decide)

end EduMate
